import Mathlib

/-!
Verification development for the Elevoi voice-agent booking controller
(`agent.py`).  The Python operations `check_availability`,
`book_appointment` and the `entrypoint` setup phase are shallowly embedded
as total Lean functions.  HTTP interaction is modelled by an explicit
`HttpOutcome` argument (the backend's observable behaviour for the single
request an operation issues); Python exceptions raised while processing a
response are modelled explicitly (`Except Unit` / dedicated constructors)
and absorbed exactly where the source's `try/except` blocks absorb them,
so each embedded operation is total and "never raises" corresponds to the
functions being defined on every input.  JSON payloads are modelled by the
inductive `Jv` (numbers as integers; no claim depends on fractional
values; parsed objects have unique keys, so association-list lookup is
faithful).
-/

namespace ElevoiAgent

/-- JSON values as produced by `response.json()` / `json.loads`. -/
inductive Jv where
  | null
  | bool (b : Bool)
  | num (n : Int)
  | str (s : String)
  | arr (xs : List Jv)
  | obj (kvs : List (String × Jv))

/-- Python truthiness of a JSON value (`if data.get("available") and ...`). -/
def truthy : Jv → Bool
  | .null => false
  | .bool b => b
  | .num n => n != 0
  | .str s => s != ""
  | .arr xs => !xs.isEmpty
  | .obj kvs => !kvs.isEmpty

/-- Association-list lookup, modelling `dict.get(key)` on a parsed JSON
object (keys are unique after parsing). -/
def getKey (kvs : List (String × Jv)) (k : String) : Option Jv :=
  match kvs with
  | [] => none
  | (k2, v) :: rest => if k2 = k then some v else getKey rest k

/-- `dict.get(key)` with Python's default `None`. -/
def jGet (kvs : List (String × Jv)) (k : String) : Jv :=
  (getKey kvs k).getD .null

/-- Result of trying to read a response body: either parsed JSON or a body
on which `response.json()` raises. -/
inductive BodyParse where
  | json (v : Jv)
  | malformed

/-- Observable behaviour of the backend for one HTTP request: a response
with a status code and body, or a transport-level failure (connection
error / timeout), which in the source raises out of the `httpx` call. -/
inductive HttpOutcome where
  | success (status : Nat) (body : BodyParse)
  | transportError

/-! ### List-of-characters helpers mirroring Python string primitives -/

/-- `c in s` for a single character, as in `"T" in start_time`. -/
def containsChar (c : Char) (l : List Char) : Bool :=
  l.any (fun x => x == c)

/-- Python `str.split(sep)` for a one-character separator (no maxsplit):
`"".split(c) = [""]`, separators at the ends produce empty pieces. -/
def splitOnChar (c : Char) : List Char → List (List Char)
  | [] => [[]]
  | x :: rest =>
    let r := splitOnChar c rest
    if x == c then [] :: r
    else
      match r with
      | [] => [[x]]
      | h :: t => (x :: h) :: t

/-- Boolean list-prefix test. -/
def prefixOfCL : List Char → List Char → Bool
  | [], _ => true
  | _ :: _, [] => false
  | a :: as, b :: bs => a == b && prefixOfCL as bs

/-- Python `needle in haystack` substring test. -/
def hasSubstr : List Char → List Char → Bool
  | n, [] => prefixOfCL n []
  | n, h :: t => prefixOfCL n (h :: t) || hasSubstr n t

/-- Python `str.lower()` (ASCII case folding; all strings the source
compares are ASCII). -/
def lowerStr (s : String) : String :=
  String.mk (s.data.map Char.toLower)

/-! ### check_availability -/

def msgTroubleNow : String :=
  "I\x27m having trouble checking availability right now."

def msgTroubleTransfer : String :=
  "I\x27m having trouble checking availability. Let me transfer you to our staff."

def msgNoAvail (date : String) : String :=
  "I\x27m sorry, we don\x27t have any availability on " ++ date ++
    ". Would you like to try a different date?"

def msgTimes (date times : String) : String :=
  "Yes, we have availability on " ++ date ++ ". Some available times are: " ++
    times ++ ". What time works best for you?"

def msgCount (n : Nat) (date : String) : String :=
  "We have " ++ toString n ++ " available slots on " ++ date ++
    ". What time would you prefer?"

/-- Time-of-day extraction from one slot's `startTime` string:
`if "T" in start_time: ":".join(start_time.split("T")[1].split(":")[0:2])`.
`none` means the slot contributes no time (no `"T"` in the string). -/
def extractTime (st : String) : Option String :=
  if containsChar 'T' st.data then
    some (String.mk (List.intercalate [':']
      ((splitOnChar ':' ((splitOnChar 'T' st.data).getD 1 [])).take 2)))
  else none

/-- Processing of one element of `data["slots"][:5]` inside the loop.
`Except.error` marks a Python exception: `slot.get` on a non-dict
(`AttributeError`) or `"T" in start_time` with a non-string value
(`TypeError`).  A missing `startTime` key defaults to `""`. -/
def slotTime (slot : Jv) : Except Unit (Option String) :=
  match slot with
  | .obj kvs =>
    match getKey kvs "startTime" with
    | none => .ok (extractTime "")
    | some (.str st) => .ok (extractTime st)
    | some _ => .error ()
  | _ => .error ()

/-- The `slot_times` accumulation loop over the (already truncated) slot
list; an exception at any slot aborts the whole operation. -/
def slotTimes : List Jv → Except Unit (List String)
  | [] => .ok []
  | s :: rest =>
    match slotTime s with
    | .error _ => .error ()
    | .ok none => slotTimes rest
    | .ok (some t) =>
      match slotTimes rest with
      | .error _ => .error ()
      | .ok ts => .ok (t :: ts)

/-- Body of `AppointmentBookingAgent.check_availability` after the GET
request returned `outcome`.  Every branch of the source is represented;
branches in which the Python code would raise (and the outer `except`
fires, logging and returning the "right now" sentence) produce the same
string the `except` handler returns. -/
def checkAvailability (date : String) (outcome : HttpOutcome) : String :=
  match outcome with
  | .transportError => msgTroubleNow
  | .success status body =>
    if status = 200 then
      match body with
      | .malformed => msgTroubleNow
      | .json data =>
        match data with
        | .obj kvs =>
          if truthy (jGet kvs "available") && truthy (jGet kvs "slots") then
            match jGet kvs "slots" with
            | .arr xs =>
              match slotTimes (xs.take 5) with
              | .error _ => msgTroubleNow
              | .ok ts =>
                if ts.isEmpty then msgCount (xs.take 5).length date
                else msgTimes date (String.intercalate ", " (ts.take 3))
            | _ => msgTroubleNow
          else msgNoAvail date
        | _ => msgTroubleNow
    else msgTroubleTransfer

/-- The query-string parameters of the availability GET request. -/
structure AvailRequest where
  businessId : String
  date : String
  duration : Nat
deriving DecidableEq

/-- `check_availability` with its outbound traffic made explicit: the
source issues the GET unconditionally (no local validation precedes it),
then handles the outcome. -/
def checkAvailabilityRun (businessId date : String) (duration : Nat)
    (outcome : HttpOutcome) : List AvailRequest × String :=
  ([⟨businessId, date, duration⟩], checkAvailability date outcome)

/-! ### Calendar arithmetic (datetime.strptime / timedelta / isoformat)

`book_appointment` builds `datetime.strptime(f"{date} {time}", "%Y-%m-%d %H:%M")`
and adds `timedelta(minutes=duration_minutes)`.  A datetime is embedded as
the number of minutes since 0001-01-01T00:00 in the proleptic Gregorian
calendar (the calendar `datetime` uses); `strptime` validation (month and
day ranges, leap years, hour/minute ranges, `MINYEAR = 1`) is embedded for
inputs in the advertised `YYYY-MM-DD` / `HH:MM` shapes, and any other
input maps to `none` (a `ValueError`, absorbed by the source's `except`). -/

def isLeap (y : Nat) : Bool :=
  y % 4 = 0 && (y % 100 != 0 || y % 400 = 0)

def daysInMonth (y m : Nat) : Nat :=
  if m = 2 then (if isLeap y then 29 else 28)
  else if m = 4 ∨ m = 6 ∨ m = 9 ∨ m = 11 then 30
  else 31

def daysBeforeYear (y : Nat) : Nat :=
  365 * (y - 1) + (y - 1) / 4 - (y - 1) / 100 + (y - 1) / 400

def daysBeforeMonth (y m : Nat) : Nat :=
  (List.range (m - 1)).foldl (fun acc i => acc + daysInMonth y (i + 1)) 0

/-- 0-based ordinal day of a proleptic-Gregorian date (0001-01-01 ↦ 0). -/
def toOrdinal (y m d : Nat) : Nat :=
  daysBeforeYear y + daysBeforeMonth y m + (d - 1)

def digitVal (c : Char) : Nat :=
  c.toNat - 48

/-- `strptime` on the `%Y-%m-%d` part: digits in the `YYYY-MM-DD` shape
and a real calendar date (year at least `MINYEAR = 1`). -/
def parseDate (s : String) : Option (Nat × Nat × Nat) :=
  match s.data with
  | [y1, y2, y3, y4, '-', m1, m2, '-', d1, d2] =>
    if y1.isDigit && y2.isDigit && y3.isDigit && y4.isDigit &&
        m1.isDigit && m2.isDigit && d1.isDigit && d2.isDigit then
      let y := digitVal y1 * 1000 + digitVal y2 * 100 + digitVal y3 * 10 + digitVal y4
      let m := digitVal m1 * 10 + digitVal m2
      let d := digitVal d1 * 10 + digitVal d2
      if 1 ≤ y ∧ 1 ≤ m ∧ m ≤ 12 ∧ 1 ≤ d ∧ d ≤ daysInMonth y m then
        some (y, m, d)
      else none
    else none
  | _ => none

/-- `strptime` on the `%H:%M` part (24-hour clock). -/
def parseTime (s : String) : Option (Nat × Nat) :=
  match s.data with
  | [h1, h2, ':', n1, n2] =>
    if h1.isDigit && h2.isDigit && n1.isDigit && n2.isDigit then
      let h := digitVal h1 * 10 + digitVal h2
      let n := digitVal n1 * 10 + digitVal n2
      if h ≤ 23 ∧ n ≤ 59 then some (h, n) else none
    else none
  | _ => none

/-- `datetime.strptime(f"{date} {time}", "%Y-%m-%d %H:%M")` as minutes
since 0001-01-01T00:00; `none` where `strptime` raises `ValueError`. -/
def strptimeMinutes (date time : String) : Option Nat :=
  match parseDate date, parseTime time with
  | some (y, m, d), some (h, n) => some (toOrdinal y m d * 1440 + h * 60 + n)
  | _, _ => none

/-- Month/day recovery from the days remaining within a year. -/
def monthSearch : Nat → List Nat → Nat → Nat × Nat
  | m, [], rem => (m, rem + 1)
  | m, dm :: rest, rem =>
    if rem < dm then (m, rem + 1) else monthSearch (m + 1) rest (rem - dm)

def monthLens (y : Nat) : List Nat :=
  (List.range 12).map (fun i => daysInMonth y (i + 1))

/-- Inverse of `toOrdinal` (the standard 400/100/4/1-year era
decomposition, as in CPython's `_ord2ymd`). -/
def ord2ymd (n : Nat) : Nat × Nat × Nat :=
  let n400 := n / 146097
  let r1 := n % 146097
  let n100 := r1 / 36524
  let r2 := r1 % 36524
  let n4 := r2 / 1461
  let r3 := r2 % 1461
  let n1 := r3 / 365
  let r4 := r3 % 365
  if n1 = 4 ∨ n100 = 4 then
    (400 * n400 + 100 * n100 + 4 * n4 + n1, 12, 31)
  else
    let y := 400 * n400 + 100 * n100 + 4 * n4 + n1 + 1
    let md := monthSearch 1 (monthLens y) r4
    (y, md.1, md.2)

def pad2 (n : Nat) : String :=
  if n < 10 then "0" ++ toString n else toString n

def pad4 (n : Nat) : String :=
  if n < 10 then "000" ++ toString n
  else if n < 100 then "00" ++ toString n
  else if n < 1000 then "0" ++ toString n
  else toString n

/-- `datetime.isoformat()` of a whole-minute datetime:
`YYYY-MM-DDTHH:MM:SS`. -/
def isoOfMinutes (t : Nat) : String :=
  let ymd := ord2ymd (t / 1440)
  pad4 ymd.1 ++ "-" ++ pad2 ymd.2.1 ++ "-" ++ pad2 ymd.2.2 ++ "T" ++
    pad2 (t % 1440 / 60) ++ ":" ++ pad2 (t % 60) ++ ":00"

/-! ### book_appointment -/

def msgBookTrouble : String :=
  "I\x27m having trouble booking the appointment right now. Let me transfer you to our staff."

def msgConfirm (service date time : String) : String :=
  "Perfect! Your " ++ service ++ " appointment is confirmed for " ++ date ++
    " at " ++ time ++
    ". You\x27ll receive a confirmation text message shortly. Is there anything else I can help you with?"

def msgConflict : String :=
  "I apologize, but that time slot was just booked by someone else. Let me check other available times for you."

def msgCouldNotBook (errMsg : String) : String :=
  "I couldn\x27t book that appointment. " ++ errMsg

/-- `"already booked" in error_msg.lower()`. -/
def bookedCheck (errMsg : String) : Bool :=
  hasSubstr "already booked".data (lowerStr errMsg).data

/-- Handling of the POST response in `book_appointment`.  Paths where the
Python code raises (unparseable body, `.get` on a non-dict error payload,
`.lower()` on a non-string error value) fall to the outer `except` and
yield the trouble-booking sentence. -/
def handleBooking (service date time : String) (outcome : HttpOutcome) : String :=
  match outcome with
  | .transportError => msgBookTrouble
  | .success status body =>
    if status = 201 then
      match body with
      | .malformed => msgBookTrouble
      | .json _ => msgConfirm service date time
    else
      match body with
      | .malformed => msgBookTrouble
      | .json errData =>
        match errData with
        | .obj kvs =>
          match (getKey kvs "error").getD (.str "Please try again.") with
          | .str errMsg =>
            if bookedCheck errMsg then msgConflict else msgCouldNotBook errMsg
          | _ => msgBookTrouble
        | _ => msgBookTrouble

/-- The JSON body of the booking POST request. -/
structure BookRequest where
  businessId : String
  customerName : String
  customerPhone : String
  service : String
  startTime : String
  endTime : String
  notes : String
deriving DecidableEq

/-- The largest whole-minute instant Python's `datetime` can represent
(`datetime.max` = 9999-12-31T23:59:59.999999), in minutes since
0001-01-01T00:00.  `start_datetime + timedelta(minutes=d)` raises
`OverflowError` exactly when the (whole-minute) result exceeds it. -/
def pythonDatetimeMaxMinutes : Nat :=
  toOrdinal 9999 12 31 * 1440 + 23 * 60 + 59

/-- `AppointmentBookingAgent.book_appointment` with its outbound traffic
made explicit: a `strptime` failure, or an `OverflowError` from
`start_datetime + timedelta` leaving the `datetime` range, raises before
the POST (no request; the `except` returns the trouble sentence);
otherwise exactly one POST is issued carrying the derived ISO
`startTime`/`endTime`, and the response is handled by `handleBooking`. -/
def bookAppointmentRun (businessId date time service customerName customerPhone : String)
    (durationMinutes : Nat) (outcome : HttpOutcome) : List BookRequest × String :=
  match strptimeMinutes date time with
  | none => ([], msgBookTrouble)
  | some start =>
    if start + durationMinutes ≤ pythonDatetimeMaxMinutes then
      ([⟨businessId, customerName, customerPhone, service,
          isoOfMinutes start, isoOfMinutes (start + durationMinutes),
          "Booked via AI voice agent"⟩],
        handleBooking service date time outcome)
    else ([], msgBookTrouble)

/-- The string `book_appointment` returns to the dialog layer. -/
def bookAppointment (businessId date time service customerName customerPhone : String)
    (durationMinutes : Nat) (outcome : HttpOutcome) : String :=
  (bookAppointmentRun businessId date time service customerName customerPhone
    durationMinutes outcome).2

/-! ### entrypoint call setup -/

/-- Result of `json.loads(room_metadata)`: a JSON value, or an exception
(absorbed by the bare `except`, which leaves `business_id = None`). -/
inductive MetadataParse where
  | ok (v : Jv)
  | err

/-- The `business_id` the setup code extracts: `metadata.get("businessId")`
after a successful parse of a JSON object; `none` when parsing failed or
the parsed value is not a dict (`.get` raises, the `except` path leaves
`None`). -/
def metaBusinessId : MetadataParse → Option Jv
  | .err => none
  | .ok (.obj kvs) => getKey kvs "businessId"
  | .ok _ => none

/-- The per-call booking helper object (`AppointmentBookingAgent.__init__`
stores the business id; base URL and API key come from ambient process
configuration and carry no claim-relevant state). -/
structure AppointmentBookingAgent where
  business_id : Jv

/-- The guard `if not business_id: return` in `entrypoint`. -/
def noBusinessId (mp : MetadataParse) : Bool :=
  match metaBusinessId mp with
  | none => true
  | some v => !truthy v

/-- The setup phase of `entrypoint`: parse metadata, extract the business
id, abort before constructing the agent when it is missing or falsy.  The
second component counts network operations performed for the call: `0` on
the abort path (the function returns before `ctx.connect`), `1` (the room
connection) once setup proceeds. -/
def entrypointRun (mp : MetadataParse) : Option AppointmentBookingAgent × Nat :=
  match metaBusinessId mp with
  | none => (none, 0)
  | some bid => if truthy bid then (some ⟨bid⟩, 1) else (none, 0)

/-! ### Well-formedness predicates used to state the claims -/

/-- A `YYYY-MM-DDTHH:MM:SS`-shaped timestamp string (the backend's
advertised `startTime` format). -/
def isIsoTimestamp (st : String) : Bool :=
  match st.data with
  | [y1, y2, y3, y4, '-', m1, m2, '-', d1, d2, 'T', h1, h2, ':', n1, n2, ':', s1, s2] =>
    y1.isDigit && y2.isDigit && y3.isDigit && y4.isDigit && m1.isDigit && m2.isDigit &&
    d1.isDigit && d2.isDigit && h1.isDigit && h2.isDigit && n1.isDigit && n2.isDigit &&
    s1.isDigit && s2.isDigit
  | _ => false

/-- An `HH:MM`-shaped time-of-day string. -/
def isHHMM (t : String) : Bool :=
  match t.data with
  | [a, b, ':', c, d] => a.isDigit && b.isDigit && c.isDigit && d.isDigit
  | _ => false

/-- A slot object carrying an ISO-shaped `startTime` string. -/
def isoSlot (j : Jv) : Bool :=
  match j with
  | .obj kvs =>
    match getKey kvs "startTime" with
    | some (.str st) => isIsoTimestamp st
    | _ => false
  | _ => false

/-- The time a slot contributes, ignoring the exception path. -/
def slotTimeOf (j : Jv) : Option String :=
  match slotTime j with
  | .ok o => o
  | .error _ => none

/-- A slot object whose `startTime` is absent, or is a string not
containing the character `T` (so the loop extracts no time from it). -/
def noTimeSlot (j : Jv) : Bool :=
  match j with
  | .obj kvs =>
    match getKey kvs "startTime" with
    | none => true
    | some (.str st) => !containsChar 'T' st.data
    | some _ => false
  | _ => false

/-- Modelled from the spec, for comparison with the source's
classification (claim C5): "a heuristic string match on the word
booked" — the lowercased error message contains the word `booked`. -/
def specWordBookedMatch (errMsg : String) : Bool :=
  hasSubstr "booked".data (lowerStr errMsg).data

/-! ### Helper lemmas -/

lemma digit_ne (c x : Char) (hx : x.isDigit = false) (h : c.isDigit = true) : c ≠ x := by
  intro hc; subst hc; rw [h] at hx; cases hx

lemma extractTime_iso (st : String) (h : isIsoTimestamp st = true) :
    ∃ t, extractTime st = some t ∧ isHHMM t = true := by
  unfold isIsoTimestamp at h
  unfold extractTime
  split at h
  case _ y1 y2 y3 y4 m1 m2 d1 d2 h1 h2 n1 n2 s1 s2 heq =>
    simp only [Bool.and_eq_true] at h
    obtain ⟨⟨⟨⟨⟨⟨⟨⟨⟨⟨⟨⟨⟨hy1, hy2⟩, hy3⟩, hy4⟩, hm1⟩, hm2⟩, hd1⟩, hd2⟩, hh1⟩, hh2⟩, hn1⟩,
      hn2⟩, hs1⟩, hs2⟩ := h
    refine ⟨String.mk [h1, h2, ':', n1, n2], ?_, ?_⟩
    · rw [heq]
      simp [containsChar, splitOnChar, List.intercalate,
        digit_ne y1 'T' (by decide) hy1, digit_ne y2 'T' (by decide) hy2,
        digit_ne y3 'T' (by decide) hy3, digit_ne y4 'T' (by decide) hy4,
        digit_ne m1 'T' (by decide) hm1, digit_ne m2 'T' (by decide) hm2,
        digit_ne d1 'T' (by decide) hd1, digit_ne d2 'T' (by decide) hd2,
        digit_ne h1 'T' (by decide) hh1, digit_ne h2 'T' (by decide) hh2,
        digit_ne n1 'T' (by decide) hn1, digit_ne n2 'T' (by decide) hn2,
        digit_ne s1 'T' (by decide) hs1, digit_ne s2 'T' (by decide) hs2,
        digit_ne h1 ':' (by decide) hh1, digit_ne h2 ':' (by decide) hh2,
        digit_ne n1 ':' (by decide) hn1, digit_ne n2 ':' (by decide) hn2,
        digit_ne s1 ':' (by decide) hs1, digit_ne s2 ':' (by decide) hs2]
    · simp [isHHMM, hh1, hh2, hn1, hn2]
  case _ => exact absurd h (by simp)

lemma slotTime_iso (j : Jv) (h : isoSlot j = true) :
    ∃ t, slotTime j = .ok (some t) ∧ slotTimeOf j = some t ∧ isHHMM t = true := by
  unfold isoSlot at h
  split at h
  case _ kvs =>
    split at h
    case _ st hg =>
      obtain ⟨t, het, hhm⟩ := extractTime_iso st h
      refine ⟨t, ?_, ?_, hhm⟩
      · simp [slotTime, hg, het]
      · simp [slotTimeOf, slotTime, hg, het]
    case _ => exact absurd h (by simp)
  case _ => exact absurd h (by simp)

lemma slotTimes_wf (l : List Jv) (h : ∀ j ∈ l, isoSlot j = true) :
    slotTimes l = .ok (l.filterMap slotTimeOf) ∧
    (l.filterMap slotTimeOf).length = l.length ∧
    ∀ t ∈ l.filterMap slotTimeOf, isHHMM t = true := by
  induction l with
  | nil => exact ⟨rfl, rfl, by intro t ht; cases ht⟩
  | cons j rest ih =>
    have hj := h j (by simp)
    obtain ⟨hok, hlen, hall⟩ := ih (fun x hx => h x (by simp [hx]))
    obtain ⟨t, hst, hsto, hhm⟩ := slotTime_iso j hj
    refine ⟨?_, ?_, ?_⟩
    · unfold slotTimes; rw [hst, hok, List.filterMap_cons, hsto]
    · rw [List.filterMap_cons, hsto]; simp [hlen]
    · intro u hu
      rw [List.filterMap_cons, hsto] at hu
      rcases List.mem_cons.mp hu with h1 | h1
      · subst h1; exact hhm
      · exact hall u h1

lemma slotTime_noTime (j : Jv) (h : noTimeSlot j = true) : slotTime j = .ok none := by
  unfold noTimeSlot at h
  split at h
  case _ kvs =>
    split at h
    case _ hg => simp [slotTime, hg, extractTime, containsChar]
    case _ st hg =>
      simp only [Bool.not_eq_eq_eq_not, Bool.not_true] at h
      simp [slotTime, hg, extractTime, h]
    case _ => exact absurd h (by simp)
  case _ => exact absurd h (by simp)

lemma slotTimes_noTime (l : List Jv) (h : ∀ j ∈ l, noTimeSlot j = true) :
    slotTimes l = .ok [] := by
  induction l with
  | nil => rfl
  | cons j rest ih =>
    have hj := slotTime_noTime j (h j (by simp))
    unfold slotTimes
    rw [hj, ih (fun x hx => h x (by simp [hx]))]

lemma msgNoAvail_len (d : String) : 0 < (msgNoAvail d).length := by
  unfold msgNoAvail
  rw [String.length_append, String.length_append]
  have h : 0 < ("I\x27m sorry, we don\x27t have any availability on " : String).length := by
    decide
  omega

lemma msgTimes_len (d t : String) : 0 < (msgTimes d t).length := by
  unfold msgTimes
  rw [String.length_append, String.length_append, String.length_append,
    String.length_append]
  have h : 0 < ("Yes, we have availability on " : String).length := by decide
  omega

lemma msgCount_len (n : Nat) (d : String) : 0 < (msgCount n d).length := by
  unfold msgCount
  rw [String.length_append, String.length_append, String.length_append,
    String.length_append]
  have h : 0 < ("We have " : String).length := by decide
  omega

lemma checkAvailability_len_pos (date : String) (o : HttpOutcome) :
    0 < (checkAvailability date o).length := by
  have hNow : 0 < msgTroubleNow.length := by decide
  have hTr : 0 < msgTroubleTransfer.length := by decide
  unfold checkAvailability
  split
  · exact hNow
  · split
    · split
      · exact hNow
      · split
        · split
          · split
            · split
              · exact hNow
              · split
                · exact msgCount_len _ _
                · exact msgTimes_len _ _
            · exact hNow
          · exact msgNoAvail_len date
        · exact hNow
    · exact hTr

/-! ### Claims -/

/-- Claim C1: for every (date, duration) input and every backend outcome —
2xx response (any payload), non-2xx response, transport failure, or a
malformed payload — `check_availability` returns a non-empty string; the
embedding is total (every exception path of the source is a branch of the
model absorbed by the `except` handler), so no exception reaches the
caller. -/
theorem C1_check_availability_total_nonempty (businessId date : String) (duration : Nat)
    (o : HttpOutcome) : 0 < ((checkAvailabilityRun businessId date duration o).2).length :=
  checkAvailability_len_pos date o

/-- Claim C2 counterexample: the transport-failure sentence and the
non-2xx sentence are two different strings, refuting "the same string in
both failure modes". -/
theorem C2_counterexample :
    checkAvailability "2024-06-01" HttpOutcome.transportError ≠
      checkAvailability "2024-06-01" (.success 503 (.json .null)) := by
  decide

/-- Claim C2 amended: each availability failure mode yields a fixed
sentence, the same across repeated failures and independent of the date,
but the transport-failure sentence ("... right now.") differs from the
non-2xx sentence ("... transfer you to our staff."). -/
theorem C2_amended_fixed_failure_sentences (date : String) (status : Nat) (body : BodyParse)
    (h : status ≠ 200) :
    checkAvailability date .transportError = msgTroubleNow ∧
    checkAvailability date (.success status body) = msgTroubleTransfer ∧
    msgTroubleNow ≠ msgTroubleTransfer := by
  refine ⟨rfl, ?_, by decide⟩
  simp [checkAvailability, h]

/-- Witness for C2 amended at a concrete non-2xx status. -/
theorem C2_amended_witness :
    checkAvailability "2024-06-01" .transportError = msgTroubleNow ∧
    checkAvailability "2024-06-01" (.success 503 (.json .null)) = msgTroubleTransfer ∧
    msgTroubleNow ≠ msgTroubleTransfer :=
  C2_amended_fixed_failure_sentences "2024-06-01" 503 (.json .null) (by decide)

/-- Claim C3 counterexample: `date=9999-12-31, time=23:59, duration=45`
is well-formed with positive duration, yet the source raises
`OverflowError` in `start_datetime + timedelta` (the end instant would
leave Python's `datetime` range) before the POST; the `except` handler
returns the trouble-booking sentence and no request carrying a derived
`end_time` is ever issued, refuting the claim at this in-domain input. -/
theorem C3_counterexample :
    strptimeMinutes "9999-12-31" "23:59" = some 5258964959 ∧ 0 < 45 ∧
    bookAppointmentRun "biz1" "9999-12-31" "23:59" "Haircut" "Jane Doe" "+15551234567" 45
        (.success 201 (.json (.obj []))) = ([], msgBookTrouble) := by
  refine ⟨rfl, by decide, ?_⟩
  decide

/-- Claim C3 amended: for a well-formed date (`YYYY-MM-DD`), time
(`HH:MM`) and positive duration whose end instant still fits in Python's
`datetime` range, `book_appointment` issues a POST whose `startTime` is
the ISO rendering of date+time and whose `endTime` is the ISO rendering of
that instant plus `duration_minutes`, the end strictly after the start;
when the addition leaves the `datetime` range, the `OverflowError` is
absorbed and the trouble-booking sentence is returned with no request
issued. -/
theorem C3_amended_end_after_start
    (businessId date time service customerName customerPhone : String)
    (durationMinutes start : Nat) (o : HttpOutcome)
    (hparse : strptimeMinutes date time = some start) (hdur : 0 < durationMinutes) :
    (start + durationMinutes ≤ pythonDatetimeMaxMinutes →
      (bookAppointmentRun businessId date time service customerName customerPhone
          durationMinutes o).1 =
        [⟨businessId, customerName, customerPhone, service, isoOfMinutes start,
          isoOfMinutes (start + durationMinutes), "Booked via AI voice agent"⟩] ∧
      start < start + durationMinutes) ∧
    (pythonDatetimeMaxMinutes < start + durationMinutes →
      bookAppointmentRun businessId date time service customerName customerPhone
          durationMinutes o = ([], msgBookTrouble)) := by
  constructor
  · intro hle
    constructor
    · simp [bookAppointmentRun, hparse, hle]
    · omega
  · intro hgt
    have hn : ¬(start + durationMinutes ≤ pythonDatetimeMaxMinutes) := by omega
    simp [bookAppointmentRun, hparse, hn]

/-- Witness for C3 amended at `date=2024-06-01, time=14:00, duration=45`;
the derived `endTime` is `2024-06-01T14:45:00`. -/
theorem C3_amended_witness :
    strptimeMinutes "2024-06-01" "14:00" = some 1064214120 ∧
    ((bookAppointmentRun "biz1" "2024-06-01" "14:00" "Haircut" "Jane Doe" "+15551234567" 45
        (.success 201 (.json (.obj [])))).1 =
      [⟨"biz1", "Jane Doe", "+15551234567", "Haircut", isoOfMinutes 1064214120,
        isoOfMinutes (1064214120 + 45), "Booked via AI voice agent"⟩] ∧
      1064214120 < 1064214120 + 45) ∧
    isoOfMinutes (1064214120 + 45) = "2024-06-01T14:45:00" :=
  ⟨rfl,
    (C3_amended_end_after_start "biz1" "2024-06-01" "14:00" "Haircut" "Jane Doe"
      "+15551234567" 45 1064214120 (.success 201 (.json (.obj []))) rfl (by decide)).1
      (by decide),
    rfl⟩

/-- Claim C4: on a 200 response with truthy `available` and a non-empty
slot list whose first (at most 5) slots carry ISO-shaped `startTime`
strings, the response is the times sentence built from at most the first 3
extracted times, every one of which is an `HH:MM` string, taken in backend
order. -/
theorem C4_at_most_three_times (date : String) (kvs : List (String × Jv)) (xs : List Jv)
    (hav : truthy (jGet kvs "available") = true)
    (hsl : getKey kvs "slots" = some (.arr xs))
    (hne : xs ≠ [])
    (hwf : ∀ j ∈ xs.take 5, isoSlot j = true) :
    checkAvailability date (.success 200 (.json (.obj kvs))) =
      msgTimes date (String.intercalate ", " (((xs.take 5).filterMap slotTimeOf).take 3)) ∧
    (((xs.take 5).filterMap slotTimeOf).take 3).length ≤ 3 ∧
    ∀ t ∈ ((xs.take 5).filterMap slotTimeOf).take 3, isHHMM t = true := by
  have hj : jGet kvs "slots" = Jv.arr xs := by unfold jGet; rw [hsl]; rfl
  have htr : truthy (Jv.arr xs) = true := by
    cases xs with
    | nil => exact absurd rfl hne
    | cons a l => rfl
  obtain ⟨hok, hlen, hall⟩ := slotTimes_wf (xs.take 5) hwf
  have hpos : 0 < ((xs.take 5).filterMap slotTimeOf).length := by
    rw [hlen]
    cases xs with
    | nil => exact absurd rfl hne
    | cons a l => simp
  have hemp : ((xs.take 5).filterMap slotTimeOf).isEmpty = false := by
    cases hfm : (xs.take 5).filterMap slotTimeOf with
    | nil => rw [hfm] at hpos; simp at hpos
    | cons a l => rfl
  refine ⟨?_, ?_, ?_⟩
  · simp [checkAvailability, hav, hj, htr, hok, hemp]
  · exact List.length_take_le 3 _
  · intro t ht
    exact hall t (List.take_subset 3 _ ht)

/-- Witness for C4 on a 200 payload with two ISO slots. -/
theorem C4_witness :
    checkAvailability "2024-06-01"
        (.success 200 (.json (.obj [("available", .bool true),
          ("slots", .arr [.obj [("startTime", .str "2024-06-01T09:00:00")],
            .obj [("startTime", .str "2024-06-01T10:30:00")]])]))) =
      msgTimes "2024-06-01" (String.intercalate ", "
        ((([Jv.obj [("startTime", .str "2024-06-01T09:00:00")],
            Jv.obj [("startTime", .str "2024-06-01T10:30:00")]].take 5).filterMap
              slotTimeOf).take 3)) ∧
    ((([Jv.obj [("startTime", .str "2024-06-01T09:00:00")],
        Jv.obj [("startTime", .str "2024-06-01T10:30:00")]].take 5).filterMap
          slotTimeOf).take 3).length ≤ 3 ∧
    ∀ t ∈ (([Jv.obj [("startTime", .str "2024-06-01T09:00:00")],
        Jv.obj [("startTime", .str "2024-06-01T10:30:00")]].take 5).filterMap
          slotTimeOf).take 3, isHHMM t = true :=
  C4_at_most_three_times "2024-06-01" _ _ rfl rfl (List.cons_ne_nil _ _) (by decide)

/-- Claim C5 counterexample: the error message "slot booked" matches the
spec's word-level heuristic (contains "booked") but the source does not
classify it as a conflict — it returns the generic apology with the
backend detail instead of the conflict sentence. -/
theorem C5_counterexample :
    specWordBookedMatch "slot booked" = true ∧
    handleBooking "Haircut" "2024-06-01" "14:00"
        (.success 409 (.json (.obj [("error", .str "slot booked")]))) =
      msgCouldNotBook "slot booked" ∧
    msgCouldNotBook "slot booked" ≠ msgConflict := by
  decide

/-- Claim C5 amended: a booking rejection is classified as a slot conflict
exactly when the lowercased backend error message contains the substring
"already booked" (not the single word "booked"); in that case the response
is the apology-and-recheck sentence, otherwise the apology with the
backend detail. -/
theorem C5_amended_conflict_heuristic (service date time errMsg : String) (status : Nat)
    (h : status ≠ 201) :
    (bookedCheck errMsg = true →
      handleBooking service date time
          (.success status (.json (.obj [("error", .str errMsg)]))) = msgConflict) ∧
    (bookedCheck errMsg = false →
      handleBooking service date time
          (.success status (.json (.obj [("error", .str errMsg)]))) =
        msgCouldNotBook errMsg) := by
  constructor <;> intro hb <;> simp [handleBooking, h, getKey, hb]

/-- Witness for C5 amended at the spec's 409 example. -/
theorem C5_amended_witness :
    bookedCheck "slot already booked" = true ∧
    handleBooking "Haircut" "2024-06-01" "14:00"
        (.success 409 (.json (.obj [("error", .str "slot already booked")]))) = msgConflict :=
  ⟨by decide,
    (C5_amended_conflict_heuristic "Haircut" "2024-06-01" "14:00" "slot already booked" 409
        (by decide)).1 (by decide)⟩

/-- Claim C6 counterexample: a non-201 response whose JSON body carries no
error detail yields the apology with the default detail "Please try
again.", not the generic trouble-booking/transfer message the claim
requires. -/
theorem C6_counterexample :
    handleBooking "Haircut" "2024-06-01" "14:00" (.success 500 (.json (.obj []))) =
      msgCouldNotBook "Please try again." ∧
    msgCouldNotBook "Please try again." ≠ msgBookTrouble := by
  decide

/-- Claim C6 amended: on a non-201, non-conflict response with a parseable
JSON object body, the backend error detail is appended to the generic
apology, with "Please try again." substituted when the body has no error
field; the generic trouble-booking/transfer message arises when the body
is not parseable JSON (an internal fault), not when the detail is merely
missing. -/
theorem C6_amended_error_detail (service date time : String) (status : Nat)
    (kvs : List (String × Jv)) (h : status ≠ 201) :
    (∀ errMsg, getKey kvs "error" = some (.str errMsg) → bookedCheck errMsg = false →
      handleBooking service date time (.success status (.json (.obj kvs))) =
        msgCouldNotBook errMsg) ∧
    (getKey kvs "error" = none →
      handleBooking service date time (.success status (.json (.obj kvs))) =
        msgCouldNotBook "Please try again.") ∧
    handleBooking service date time (.success status .malformed) = msgBookTrouble := by
  refine ⟨?_, ?_, ?_⟩
  · intro errMsg hg hb
    simp [handleBooking, h, hg, hb]
  · intro hg
    simp [handleBooking, h, hg, (by decide : bookedCheck "Please try again." = false)]
  · simp [handleBooking, h]

/-- Witness for C6 amended with an empty error object. -/
theorem C6_amended_witness :
    getKey ([] : List (String × Jv)) "error" = none ∧
    handleBooking "Haircut" "2024-06-01" "14:00" (.success 500 (.json (.obj []))) =
      msgCouldNotBook "Please try again." ∧
    handleBooking "Haircut" "2024-06-01" "14:00" (.success 500 .malformed) = msgBookTrouble :=
  ⟨rfl,
    (C6_amended_error_detail "Haircut" "2024-06-01" "14:00" 500 [] (by decide)).2.1 rfl,
    (C6_amended_error_detail "Haircut" "2024-06-01" "14:00" 500 [] (by decide)).2.2⟩

/-- Claim C7 counterexample: a 200 response with `available=true` and an
empty slot list produces the no-availability / try-a-different-date
sentence (the empty list is falsy in the guard), not a count-reporting
sentence. -/
theorem C7_counterexample :
    checkAvailability "2024-06-01"
        (.success 200 (.json (.obj [("available", .bool true), ("slots", .arr [])]))) =
      msgNoAvail "2024-06-01" ∧
    msgNoAvail "2024-06-01" ≠ msgCount 0 "2024-06-01" := by
  decide

/-- Claim C7 amended: with `available` truthy and an empty slot list,
`check_availability` returns the no-availability / try-a-different-date
response; the count sentence is reserved for non-empty slot lists from
which no time string could be extracted. -/
theorem C7_amended_empty_slots (date : String) (kvs : List (String × Jv))
    (hav : truthy (jGet kvs "available") = true)
    (hsl : getKey kvs "slots" = some (.arr [])) :
    checkAvailability date (.success 200 (.json (.obj kvs))) = msgNoAvail date := by
  have hj : jGet kvs "slots" = Jv.arr [] := by unfold jGet; rw [hsl]; rfl
  simp [checkAvailability, hav, hj, truthy]

/-- Witness for C7 amended. -/
theorem C7_amended_witness :
    truthy (jGet [("available", Jv.bool true), ("slots", Jv.arr [])] "available") = true ∧
    getKey [("available", Jv.bool true), ("slots", Jv.arr [])] "slots" =
      some (Jv.arr []) ∧
    checkAvailability "2024-06-01"
        (.success 200 (.json (.obj [("available", .bool true), ("slots", .arr [])]))) =
      msgNoAvail "2024-06-01" :=
  ⟨rfl, rfl, C7_amended_empty_slots "2024-06-01" _ rfl rfl⟩

/-- Claim C8 counterexample: with a malformed date and a backend that
answers 200 `{available: false}`, `check_availability` still issues the
GET (one request, carrying the malformed date) and returns the ordinary
no-availability sentence — not the transfer-to-staff message, and not
without contacting the backend. -/
theorem C8_counterexample :
    (checkAvailabilityRun "biz1" "not-a-date" 30
        (.success 200 (.json (.obj [("available", .bool false)])))).1 ≠ [] ∧
    (checkAvailabilityRun "biz1" "not-a-date" 30
        (.success 200 (.json (.obj [("available", .bool false)])))).2 =
      msgNoAvail "not-a-date" ∧
    msgNoAvail "not-a-date" ≠ msgTroubleNow ∧
    msgNoAvail "not-a-date" ≠ msgTroubleTransfer := by
  decide

/-- Claim C8 amended: `check_availability` performs no local date
validation — every date string, well-formed or not, results in exactly one
backend request carrying that date, and the operation still never raises
(every outcome maps to a non-empty sentence). -/
theorem C8_amended_no_validation (businessId date : String) (duration : Nat)
    (o : HttpOutcome) :
    (checkAvailabilityRun businessId date duration o).1 = [⟨businessId, date, duration⟩] ∧
    0 < ((checkAvailabilityRun businessId date duration o).2).length :=
  ⟨rfl, checkAvailability_len_pos date o⟩

/-- Claim C9: when the room metadata fails to parse, is not a JSON object,
or lacks a truthy `businessId`, `entrypoint` aborts before constructing
the booking agent: no `AppointmentBookingAgent` is created and zero
network operations are performed for that call. -/
theorem C9_missing_business_id_aborts (mp : MetadataParse) (h : noBusinessId mp = true) :
    entrypointRun mp = (none, 0) := by
  unfold noBusinessId at h
  cases hm : metaBusinessId mp with
  | none => simp [entrypointRun, hm]
  | some v =>
    rw [hm] at h
    simp only [] at h
    have htv : truthy v = false := by
      cases htv2 : truthy v
      · rfl
      · rw [htv2] at h; exact absurd h (by decide)
    simp [entrypointRun, hm, htv]

/-- Witness for C9 on metadata that parses to an empty object. -/
theorem C9_witness :
    noBusinessId (.ok (.obj [])) = true ∧
    entrypointRun (.ok (.obj [])) = (none, 0) :=
  ⟨rfl, C9_missing_business_id_aborts (.ok (.obj [])) rfl⟩

/-- Claim C10: on a 200 response with truthy `available` and a non-empty
slot list none of whose first 5 slots has a `startTime` containing `T`,
the response is the count sentence, and the count equals
`min 5 (number of slots)` — understating the total when more than 5 slots
are returned. -/
theorem C10_count_understates (date : String) (kvs : List (String × Jv)) (xs : List Jv)
    (hav : truthy (jGet kvs "available") = true)
    (hsl : getKey kvs "slots" = some (.arr xs))
    (hne : xs ≠ [])
    (hnt : ∀ j ∈ xs.take 5, noTimeSlot j = true) :
    checkAvailability date (.success 200 (.json (.obj kvs))) =
      msgCount (min 5 xs.length) date ∧
    (5 < xs.length → min 5 xs.length < xs.length) := by
  have hj : jGet kvs "slots" = Jv.arr xs := by unfold jGet; rw [hsl]; rfl
  have htr : truthy (Jv.arr xs) = true := by
    cases xs with
    | nil => exact absurd rfl hne
    | cons a l => rfl
  have hok := slotTimes_noTime (xs.take 5) hnt
  constructor
  · have hlen : (xs.take 5).length = min 5 xs.length := List.length_take 5 xs
    simp [checkAvailability, hav, hj, htr, hok, hlen]
  · intro h5; omega

/-- Witness for C10 with six T-less slots. -/
theorem C10_witness :
    checkAvailability "2024-06-01"
        (.success 200 (.json (.obj [("available", .bool true),
          ("slots", .arr [.obj [("startTime", .str "09:00")],
            .obj [("startTime", .str "10:00")], .obj [("startTime", .str "11:00")],
            .obj [("startTime", .str "12:00")], .obj [("startTime", .str "13:00")],
            .obj [("startTime", .str "14:00")]])]))) =
      msgCount (min 5 ([Jv.obj [("startTime", .str "09:00")],
        Jv.obj [("startTime", .str "10:00")], Jv.obj [("startTime", .str "11:00")],
        Jv.obj [("startTime", .str "12:00")], Jv.obj [("startTime", .str "13:00")],
        Jv.obj [("startTime", .str "14:00")]] : List Jv).length) "2024-06-01" ∧
    (5 < ([Jv.obj [("startTime", .str "09:00")],
        Jv.obj [("startTime", .str "10:00")], Jv.obj [("startTime", .str "11:00")],
        Jv.obj [("startTime", .str "12:00")], Jv.obj [("startTime", .str "13:00")],
        Jv.obj [("startTime", .str "14:00")]] : List Jv).length →
      min 5 ([Jv.obj [("startTime", .str "09:00")],
        Jv.obj [("startTime", .str "10:00")], Jv.obj [("startTime", .str "11:00")],
        Jv.obj [("startTime", .str "12:00")], Jv.obj [("startTime", .str "13:00")],
        Jv.obj [("startTime", .str "14:00")]] : List Jv).length <
        ([Jv.obj [("startTime", .str "09:00")],
          Jv.obj [("startTime", .str "10:00")], Jv.obj [("startTime", .str "11:00")],
          Jv.obj [("startTime", .str "12:00")], Jv.obj [("startTime", .str "13:00")],
          Jv.obj [("startTime", .str "14:00")]] : List Jv).length) :=
  C10_count_understates "2024-06-01" _ _ rfl rfl (List.cons_ne_nil _ _) (by decide)

end ElevoiAgent
